import Mathlib

set_option maxHeartbeats 1000000

/-
Shallow embedding of the config-server repository (Go): the JSON data
handled by the HTTP layer, the Configuration data model, the store
backends (store_interface.go, the MySQL/memory store exercised by
the store test), and the request handler exercised by
server/request_handler_test.go.  The store and handler implementation
files are not present in the repository snapshot (only their tests,
the Store interface and the SQL migrations are); those operations are
modelled from the specification, and the tests are used to cross-check
the models on their concrete scenarios.
-/

/-- JSON value as handled by the server: a parsed request body or the
payload carried inside a stored envelope. -/
inductive Json where
  | str (s : String)
  | num (n : Int)
  | boolean (b : Bool)
  | null
  | arr (elems : List Json)
  | obj (fields : List (String × Json))

/-- Escape one character the way Go's json.Marshal escapes string data
(only the quote and backslash cases matter for the values in scope). -/
def escapeChar (c : Char) : String :=
  if c = '"' then "\\\"" else if c = '\\' then "\\\\" else String.mk [c]

/-- Escape a string for inclusion in serialized JSON. -/
def escapeString (s : String) : String :=
  String.join (s.data.map escapeChar)

mutual

/-- Serialize a JSON value compactly, object keys kept in the given
order, as Go's json.Marshal does for struct-backed objects. -/
def renderJson : Json → String
  | .str s => "\"" ++ escapeString s ++ "\""
  | .num n => toString n
  | .boolean b => if b then "true" else "false"
  | .null => "null"
  | .arr es => "[" ++ renderElems es ++ "]"
  | .obj fs => "\x7b" ++ renderFields fs ++ "\x7d"

/-- Serialize the comma-separated elements of a JSON array. -/
def renderElems : List Json → String
  | [] => ""
  | [e] => renderJson e
  | e :: rest => renderJson e ++ "," ++ renderElems rest

/-- Serialize the comma-separated fields of a JSON object. -/
def renderFields : List (String × Json) → String
  | [] => ""
  | [(k, v)] => "\"" ++ escapeString k ++ "\":" ++ renderJson v
  | (k, v) :: rest => "\"" ++ escapeString k ++ "\":" ++ renderJson v ++ "," ++ renderFields rest

end

/-- Configuration is the sole persisted entity: a stable identifier, a
path-like name and the stored value text (store/store_interface.go and
the Configuration struct used by both test files). -/
structure Configuration where
  id : String
  name : String
  value : String
deriving DecidableEq, Repr

/-- Zero value of Configuration, returned by the store when a lookup
finds no row. -/
def Configuration.empty : Configuration := ⟨"", "", ""⟩

/-- Modelled from the spec: the handler decides absence by checking
whether the returned Configuration has empty Name/Id (the
implementation file is missing; §4.3 of the spec fixes this test). -/
def Configuration.isEmpty (c : Configuration) : Bool :=
  c.id == "" && c.name == ""

/-- Character list of the envelope opening text, an opening brace
followed by a quoted value key and a colon. -/
def envHead : List Char := ['\x7b', '"', 'v', 'a', 'l', 'u', 'e', '"', ':']

/-- Modelled from the spec: the storage convention wraps every stored
payload in the envelope whose serialized form is the envelope head,
the raw payload text and a closing brace (§3 of the spec; the handler
implementation that builds it is missing). -/
def envelopeString (raw : String) : String :=
  String.mk envHead ++ raw ++ String.mk ['\x7d']

/-- Strip an expected leading character sequence from a character list,
failing when the list does not start with it. -/
def stripHead : List Char → List Char → Option (List Char)
  | [], l => some l
  | _ :: _, [] => none
  | p :: ps, c :: cs => if c = p then stripHead ps cs else none

/-- Drop a single closing brace from the end of a character list,
failing when the last character is not a closing brace. -/
def dropLastBrace (l : List Char) : Option (List Char) :=
  match l.reverse with
  | '\x7d' :: t => some t.reverse
  | _ => none

/-- Modelled from the spec: extract the raw JSON payload from a stored
envelope string, the inverse of the envelope convention (the handler
implementation that re-embeds the stored value as a raw JSON value is
missing; §4.2 step 3 of the spec fixes the behavior). -/
def parseEnvelope (s : String) : Option String :=
  match stripHead envHead s.data with
  | none => none
  | some rest =>
    match dropLastBrace rest with
    | none => none
    | some mid => some (String.mk mid)

/-- Response body for a found configuration: the id, name and value
keys serialized in exactly this order, the value embedded as raw JSON
text (request_handler_test.go expects these exact bodies). -/
def renderConfigResponse (i n raw : String) : String :=
  "\x7b\"id\":\"" ++ i ++ "\",\"name\":\"" ++ n ++ "\",\"value\":" ++ raw ++ "\x7d"

/-- Modelled from the spec: a character allowed inside a name segment,
alphanumeric, underscore or dash (§4.1 of the spec; the path validator
implementation is missing from the snapshot). -/
def isNameChar (c : Char) : Bool :=
  c.isAlpha || c.isDigit || c = '_' || c = '-'

/-- Modelled from the spec: tail of the name automaton after at least
one name character was read in the current segment; a slash must be
followed by a nonempty segment of name characters (the regex
of §4.1 of the spec). -/
def validTail : List Char → Bool
  | [] => true
  | '/' :: [] => false
  | '/' :: c :: t => isNameChar c && validTail t
  | c :: t => isNameChar c && validTail t

/-- Modelled from the spec: a canonical name is one or more nonempty
slash-separated segments of name characters (§4.1 of the spec). -/
def validNameChars : List Char → Bool
  | [] => false
  | c :: t => isNameChar c && validTail t

/-- Drop a single leading slash from a character list. -/
def dropLeadSlash : List Char → List Char
  | '/' :: t => t
  | l => l

/-- Drop a single trailing slash from a character list. -/
def dropTrailSlash (l : List Char) : List Char :=
  match l.reverse with
  | '/' :: t => t.reverse
  | _ => l

/-- Modelled from the spec: normalize a raw name by stripping one
leading and one trailing slash (§4.1 of the spec). -/
def stripSlashChars (l : List Char) : List Char :=
  dropTrailSlash (dropLeadSlash l)

/-- Shape of a request path with respect to the recognized URL space. -/
inductive PathKind where
  | dataRoot
  | named (name : String)
  | invalid
deriving DecidableEq, Repr

/-- Character list of the data prefix path segmented by a trailing
slash, used to recognize by-name paths. -/
def dataSlashChars : List Char := "/v1/data/".data

/-- Modelled from the spec: classify a request path; the bare data
path is the by-id surface, a path extending it with a slash carries a
raw name that is normalized, anything else is invalid (§4.1 of the
spec; the path validator implementation is missing). -/
def pathKind (path : String) : PathKind :=
  if path = "/v1/data" then .dataRoot
  else
    match stripHead dataSlashChars path.data with
    | some rest => .named (String.mk (stripSlashChars rest))
    | none => .invalid

/-- HTTP method of a request. -/
inductive Method where
  | get | put | post | delete | other (s : String)
deriving DecidableEq, Repr

/-- Early response produced by validation, a status code and a body. -/
structure Failure where
  status : Nat
  body : String
deriving DecidableEq, Repr

/-- Typed operation resolved from a method and a path. -/
inductive Operation where
  | getById (id : String)
  | getByName (name : String)
  | putName (name : String)
  | postName (name : String)
  | deleteName (name : String)
deriving DecidableEq, Repr

/-- Message rejecting an invalid name
(request_handler_test.go line 131). -/
def badNameMsg : String :=
  "Name must consist of alphanumeric, underscores, dashes, and forward slashes"

/-- Message rejecting a missing JSON content type
(request_handler_test.go lines 273 and 412). -/
def badMediaMsg : String :=
  "Unsupported Media Type - Accepts application/json only"

/-- Modelled from the spec: turn a method, path and optional id query
parameter into a typed operation or a validation failure, per §4.1 of
the spec (the path validator implementation is missing; the test at
request_handler_test.go lines 85-159 fixes the observable cases). -/
def validatePath (m : Method) (path : String) (queryId : Option String) :
    Except Failure Operation :=
  match pathKind path with
  | .invalid => .error ⟨400, "Invalid path"⟩
  | .dataRoot =>
    match queryId with
    | some i => if m = .get then .ok (.getById i) else .error ⟨400, "Invalid path"⟩
    | none => .error ⟨400, "Invalid path"⟩
  | .named n =>
    if validNameChars n.data then
      match m with
      | .get => .ok (.getByName n)
      | .put => .ok (.putName n)
      | .post => .ok (.postName n)
      | .delete => .ok (.deleteName n)
      | .other _ => .error ⟨405, "Method Not Allowed"⟩
    else .error ⟨400, badNameMsg⟩

/-- Outcome of parsing a request body, abstracting Go's json.Unmarshal
into a map: absent body, text that is not a JSON object, or the parsed
top-level fields. -/
inductive ReqBody where
  | empty
  | notJson
  | obj (fields : List (String × Json))

/-- Inbound HTTP request as seen by the handler: method, path, the id
query parameter, whether the content type is application/json, and the
parsed body. -/
structure Request where
  method : Method
  path : String
  queryId : Option String
  contentTypeJson : Bool
  body : ReqBody

/-- Record of one call the handler makes on the store. -/
inductive StoreCall where
  | getByName (name : String)
  | getById (id : String)
  | put (name value : String)
  | delete (name : String)
deriving DecidableEq, Repr

/-- Result of handling one request: status code, response body, the
resulting store state and the store and generator-factory calls the
handler made. -/
structure Outcome (σ : Type) where
  status : Nat
  body : String
  state : σ
  storeCalls : List StoreCall
  factoryCalls : List String

/-- Store backend as the handler consumes it (store_interface.go),
state-passing with an error channel: Put, GetByName, GetByID, Delete. -/
structure StoreImpl (σ : Type) where
  getByName : σ → String → Except String (Configuration × σ)
  getById : σ → String → Except String (Configuration × σ)
  put : σ → String → String → Except String σ
  delete : σ → String → Except String (Bool × σ)

/-- Read the string carried by a JSON value, the empty string for
non-string values (the type field of a POST body). -/
def jsonAsString : Json → String
  | .str s => s
  | _ => ""

/-- Fixed 500 body. -/
def internalErrMsg : String := "Internal Server Error"

/-- Modelled from the spec: serve one request, per the §4.2 state
machine (the request handler implementation is missing; the test file
request_handler_test.go fixes the observable cases).  Path and method
are validated first; PUT and POST then require a JSON content type and
a well-formed body; GET maps an absent record to 404 and a store error
to 500; PUT writes the envelope and answers 200 with the post-write
record; POST answers 200 with an existing record without consulting
the generator factory and otherwise generates, writes and answers 201;
DELETE maps true to 204, false to 404 and an error to 500.  The
outcome also logs every store and factory call made. -/
def serveHTTP {σ : Type} (impl : StoreImpl σ)
    (factory : String → Except String (Json → Json))
    (s : σ) (req : Request) : Outcome σ :=
  match validatePath req.method req.path req.queryId with
  | .error f => ⟨f.status, f.body, s, [], []⟩
  | .ok (.getById i) =>
    match impl.getById s i with
    | .error _ => ⟨500, internalErrMsg, s, [.getById i], []⟩
    | .ok (c, s1) =>
      if c.isEmpty then ⟨404, "Not Found", s1, [.getById i], []⟩
      else
        match parseEnvelope c.value with
        | some raw => ⟨200, renderConfigResponse c.id c.name raw, s1, [.getById i], []⟩
        | none => ⟨500, internalErrMsg, s1, [.getById i], []⟩
  | .ok (.getByName n) =>
    match impl.getByName s n with
    | .error _ => ⟨500, internalErrMsg, s, [.getByName n], []⟩
    | .ok (c, s1) =>
      if c.isEmpty then ⟨404, "Not Found", s1, [.getByName n], []⟩
      else
        match parseEnvelope c.value with
        | some raw => ⟨200, renderConfigResponse c.id c.name raw, s1, [.getByName n], []⟩
        | none => ⟨500, internalErrMsg, s1, [.getByName n], []⟩
  | .ok (.putName n) =>
    if req.contentTypeJson then
      match req.body with
      | .empty => ⟨400, "Request can't be empty", s, [], []⟩
      | .notJson => ⟨400, "Request Body should be JSON string", s, [], []⟩
      | .obj fs =>
        match fs.lookup "value" with
        | none => ⟨400, "JSON request body shoud contain the key 'value'", s, [], []⟩
        | some v =>
          let stored := envelopeString (renderJson v)
          match impl.put s n stored with
          | .error _ => ⟨500, internalErrMsg, s, [.put n stored], []⟩
          | .ok s1 =>
            match impl.getByName s1 n with
            | .error _ => ⟨500, internalErrMsg, s1, [.put n stored, .getByName n], []⟩
            | .ok (c, s2) =>
              match parseEnvelope c.value with
              | some raw =>
                ⟨200, renderConfigResponse c.id c.name raw, s2,
                  [.put n stored, .getByName n], []⟩
              | none => ⟨500, internalErrMsg, s2, [.put n stored, .getByName n], []⟩
    else ⟨415, badMediaMsg, s, [], []⟩
  | .ok (.postName n) =>
    if req.contentTypeJson then
      match req.body with
      | .empty => ⟨400, "Request can't be empty", s, [], []⟩
      | .notJson => ⟨400, "Request Body should be JSON string", s, [], []⟩
      | .obj fs =>
        match fs.lookup "type" with
        | none => ⟨400, "JSON request body shoud contain the key 'type'", s, [], []⟩
        | some tv =>
          match impl.getByName s n with
          | .error _ => ⟨500, internalErrMsg, s, [.getByName n], []⟩
          | .ok (c, s1) =>
            if c.isEmpty then
              let t := jsonAsString tv
              match factory t with
              | .error _ => ⟨400, "Unsupported Type: " ++ t, s1, [.getByName n], [t]⟩
              | .ok gen =>
                let params := match fs.lookup "parameters" with
                  | some p => p
                  | none => Json.obj []
                let stored := envelopeString (renderJson (gen params))
                match impl.put s1 n stored with
                | .error _ =>
                  ⟨500, internalErrMsg, s1, [.getByName n, .put n stored], [t]⟩
                | .ok s2 =>
                  match impl.getByName s2 n with
                  | .error _ =>
                    ⟨500, internalErrMsg, s2,
                      [.getByName n, .put n stored, .getByName n], [t]⟩
                  | .ok (c2, s3) =>
                    match parseEnvelope c2.value with
                    | some raw =>
                      ⟨201, renderConfigResponse c2.id c2.name raw, s3,
                        [.getByName n, .put n stored, .getByName n], [t]⟩
                    | none =>
                      ⟨500, internalErrMsg, s3,
                        [.getByName n, .put n stored, .getByName n], [t]⟩
            else
              match parseEnvelope c.value with
              | some raw =>
                ⟨200, renderConfigResponse c.id c.name raw, s1, [.getByName n], []⟩
              | none => ⟨500, internalErrMsg, s1, [.getByName n], []⟩
    else ⟨415, badMediaMsg, s, [], []⟩
  | .ok (.deleteName n) =>
    match impl.delete s n with
    | .error _ => ⟨500, internalErrMsg, s, [.delete n], []⟩
    | .ok (true, s1) => ⟨204, "", s1, [.delete n], []⟩
    | .ok (false, s1) => ⟨404, "Not Found", s1, [.delete n], []⟩

/-- Row of the configurations table: auto-increment id, unique name
and value text (the migrations in scope fix this schema). -/
structure Row where
  id : Nat
  name : String
  value : String
deriving DecidableEq, Repr

/-- State of a store backend: the next identifier the backend will
assign, and the current rows in insertion order. -/
structure DbState where
  nextId : Nat
  rows : List Row
deriving DecidableEq, Repr

/-- Empty backend state, identifiers starting at one as the
auto-increment schema does. -/
def DbState.init : DbState := ⟨1, []⟩

namespace StoreMysql

/-- Modelled from the spec: the insert attempt of the upsert; the
unique constraint on name makes it fail exactly when a row for the
name exists, otherwise the row is appended with the next identifier
(§4.3 of the spec; the store implementation is missing, the store test
fixes the issued statements). -/
def insertRow (db : DbState) (n v : String) : Except String DbState :=
  if db.rows.any (fun r => r.name == n) then
    .error "duplicate entry for name"
  else
    .ok ⟨db.nextId + 1, db.rows ++ [⟨db.nextId, n, v⟩]⟩

/-- Modelled from the spec: the update fallback of the upsert, setting
the value of every row for the name and leaving identifiers untouched
(§4.3 of the spec). -/
def updateRow (db : DbState) (n v : String) : DbState :=
  ⟨db.nextId, db.rows.map (fun r => if r.name == n then ⟨r.id, r.name, v⟩ else r)⟩

/-- Modelled from the spec: Put is the upsert, an insert attempt with
an update fallback on a uniqueness violation (§4.3 of the spec; the
store test lines 204-246 fix the two statements). -/
def put (db : DbState) (n v : String) : DbState :=
  match insertRow db n v with
  | .ok db1 => db1
  | .error _ => updateRow db n v

/-- Row selected by the by-name query, ordering by id descending and
keeping one row (the store test fixes the statement SELECT id, name,
value FROM configurations WHERE name = ? ORDER BY id DESC LIMIT 1). -/
def selectByName (db : DbState) (n : String) : Option Row :=
  (db.rows.filter (fun r => r.name == n)).foldl
    (fun acc r =>
      match acc with
      | none => some r
      | some m => if m.id < r.id then some r else some m)
    none

/-- Modelled from the spec: GetByName returns the selected row as a
Configuration and the zero value when no row matches (§4.3 of the
spec; the store test lines 34-117 fix the scan and absence cases). -/
def getByName (db : DbState) (n : String) : Configuration :=
  match selectByName db n with
  | some r => ⟨toString r.id, r.name, r.value⟩
  | none => Configuration.empty

/-- Modelled from the spec: GetById returns the row whose identifier
prints as the requested id and the zero value when no row matches
(§4.3 of the spec; the store test lines 119-202 fix the query). -/
def getById (db : DbState) (i : String) : Configuration :=
  match db.rows.find? (fun r => toString r.id == i) with
  | some r => ⟨toString r.id, r.name, r.value⟩
  | none => Configuration.empty

/-- Modelled from the spec: Delete removes every row for the name and
reports whether the statement affected at least one row (§4.3 of the
spec; the store test lines 248-297 fix the statement and the rows
affected mapping). -/
def delete (db : DbState) (n : String) : Bool × DbState :=
  let affected := (db.rows.filter (fun r => r.name == n)).length
  (decide (1 ≤ affected), ⟨db.nextId, db.rows.filter (fun r => !(r.name == n))⟩)

end StoreMysql

/-- Identifier the store associates to a name after a write: the id of
the existing row if one exists, otherwise the identifier assigned to
the fresh insert. -/
def assignedId (db : DbState) (n : String) : Nat :=
  match StoreMysql.selectByName db n with
  | some r => r.id
  | none => db.nextId

/-- Well-formed backend state: the unique constraint holds, no two
rows share a name. -/
def DbWF (db : DbState) : Prop := (db.rows.map Row.name).Nodup

/-- In-memory instantiation of the store contract over the pure
backend state; §4.3 of the spec makes the backends interchangeable
behind the Store interface. -/
def memImpl : StoreImpl DbState where
  getByName := fun s n => .ok (StoreMysql.getByName s n, s)
  getById := fun s i => .ok (StoreMysql.getById s i, s)
  put := fun s n v => .ok (StoreMysql.put s n v)
  delete := fun s n => .ok (StoreMysql.delete s n)

/-- Outcome of scanning the single row returned by a lookup query:
a row was found, the query matched no rows, or the scan failed. -/
inductive ScanOutcome where
  | found (c : Configuration)
  | noRows
  | scanFailure (e : String)
deriving DecidableEq, Repr

/-- Modelled from the spec: one GetByName call against a backend whose
connection acquisition and row scan may fail; absence (no rows) is
returned as the zero Configuration with no error, and an error is
returned exactly for a connection or scan failure (§4.3 of the spec;
the store test lines 34-117 fix all four cases). -/
def getByNameFallible (provider : Except String ScanOutcome) :
    Except String Configuration :=
  match provider with
  | .error e => .error e
  | .ok (.found c) => .ok c
  | .ok .noRows => .ok Configuration.empty
  | .ok (.scanFailure e) => .error e

/-- Modelled from the spec: one GetById call, same absence and failure
mapping as the by-name lookup (§4.3 of the spec; the store test lines
119-202 fix all four cases). -/
def getByIdFallible (provider : Except String ScanOutcome) :
    Except String Configuration :=
  match provider with
  | .error e => .error e
  | .ok (.found c) => .ok c
  | .ok .noRows => .ok Configuration.empty
  | .ok (.scanFailure e) => .error e

/-- Modelled from the spec: one Delete call against a backend whose
connection acquisition or statement execution may fail; on success the
result is true exactly when at least one row was affected, and absence
is never reported as an error (§4.3 of the spec; the store test lines
248-297 fix the cases). -/
def deleteFallible (provider : Except String (Except String Nat)) :
    Except String Bool :=
  match provider with
  | .error e => .error e
  | .ok (.error e) => .error e
  | .ok (.ok affected) => .ok (decide (1 ≤ affected))

/-- Modelled from the spec: alphabet of the password generator, lower
case alphanumeric (§4.4 of the spec; the generator implementation is
missing, the handler test line 510 fixes the observable shape). -/
def passwordChars : List Char := "abcdefghijklmnopqrstuvwxyz0123456789".data

/-- Modelled from the spec: the password generator draws twenty
characters from the alphabet using a stream of random numbers taken
from a secure source, here an explicit argument (§4.4 of the spec). -/
def generatePassword (randoms : List Nat) : String :=
  String.mk ((List.range 20).map fun i => passwordChars.getD (randoms.getD i 0 % 36) 'a')

/-- Generator factory resolving only the password type, closing over
the random stream; unknown types are errors (§4.4 of the spec). -/
def passwordFactory (randoms : List Nat) : String → Except String (Json → Json) :=
  fun t =>
    if t = "password" then .ok (fun _ => Json.str (generatePassword randoms))
    else .error ("Unsupported value type: " ++ t)

/-- Generator factory that rejects every type string. -/
def rejectAllFactory : String → Except String (Json → Json) :=
  fun t => .error ("Unsupported value type: " ++ t)

/-- Membership test for a lower-case alphanumeric character, the
character class of the password regex in the handler test. -/
def isPasswordChar (c : Char) : Bool :=
  ('a' ≤ c && c ≤ 'z') || ('0' ≤ c && c ≤ '9')

/-- Rebuilding a string from its character data is the identity. -/
theorem string_mk_data (s : String) : String.mk s.data = s := rfl

/-- Stripping an expected head from a list that starts with it yields
the remainder. -/
theorem stripHead_append (p l : List Char) : stripHead p (p ++ l) = some l := by
  induction p with
  | nil => rfl
  | cons c cs ih => simp [stripHead, ih]

/-- Dropping the final brace of a list that ends in one yields the
remainder. -/
theorem dropLastBrace_append (l : List Char) :
    dropLastBrace (l ++ ['\x7d']) = some l := by
  unfold dropLastBrace
  rw [List.reverse_append]
  simp

/-- Envelope extraction is a left inverse of envelope construction. -/
theorem parseEnvelope_envelopeString (raw : String) :
    parseEnvelope (envelopeString raw) = some raw := by
  have hdata : (envelopeString raw).data = envHead ++ (raw.data ++ ['\x7d']) := by
    simp [envelopeString, String.data_append, List.append_assoc]
  unfold parseEnvelope
  rw [hdata, stripHead_append]
  simp [dropLastBrace_append, string_mk_data]

/-- A valid name is a nonempty character list. -/
theorem validName_ne_nil {l : List Char} (h : validNameChars l = true) : l ≠ [] := by
  intro hl
  rw [hl] at h
  exact absurd h (by decide)

/-- A string whose character data forms a valid name is not the empty
string under boolean equality. -/
theorem name_beq_empty_false {n : String} (h : validNameChars n.data = true) :
    (n == "") = false := by
  apply beq_eq_false_iff_ne.mpr
  intro he
  exact validName_ne_nil h (by rw [he])

/-- A configuration carrying a valid name is not the zero value. -/
theorem isEmpty_of_validName {i v n : String} (h : validNameChars n.data = true) :
    (Configuration.mk i n v).isEmpty = false := by
  unfold Configuration.isEmpty
  simp [name_beq_empty_false h]

/-- The path validator resolves a GET on a well-named data path to the
by-name lookup operation. -/
theorem validatePath_get {p n : String} {q : Option String}
    (h1 : pathKind p = .named n) (h2 : validNameChars n.data = true) :
    validatePath .get p q = .ok (.getByName n) := by
  unfold validatePath
  rw [h1]
  simp [h2]

/-- The path validator resolves a PUT on a well-named data path to the
write operation. -/
theorem validatePath_put {p n : String} {q : Option String}
    (h1 : pathKind p = .named n) (h2 : validNameChars n.data = true) :
    validatePath .put p q = .ok (.putName n) := by
  unfold validatePath
  rw [h1]
  simp [h2]

/-- The path validator resolves a POST on a well-named data path to
the generate operation. -/
theorem validatePath_post {p n : String} {q : Option String}
    (h1 : pathKind p = .named n) (h2 : validNameChars n.data = true) :
    validatePath .post p q = .ok (.postName n) := by
  unfold validatePath
  rw [h1]
  simp [h2]

/-- The path validator resolves a DELETE on a well-named data path to
the delete operation. -/
theorem validatePath_delete {p n : String} {q : Option String}
    (h1 : pathKind p = .named n) (h2 : validNameChars n.data = true) :
    validatePath .delete p q = .ok (.deleteName n) := by
  unfold validatePath
  rw [h1]
  simp [h2]

/-- The path validator rejects any method on a data path whose
normalized name is invalid, with the documented message. -/
theorem validatePath_badName {p n : String} {q : Option String} (m : Method)
    (h1 : pathKind p = .named n) (h2 : validNameChars n.data = false) :
    validatePath m p q = .error ⟨400, badNameMsg⟩ := by
  unfold validatePath
  rw [h1]
  simp [h2]

/-- When no row matches the name filter, the by-name selection is
empty. -/
theorem selectByName_of_filter_nil {db : DbState} {n : String}
    (h : db.rows.filter (fun r => r.name == n) = []) :
    StoreMysql.selectByName db n = none := by
  unfold StoreMysql.selectByName
  rw [h]
  rfl

/-- When exactly one row matches the name filter, the by-name
selection returns it. -/
theorem selectByName_of_filter_singleton {db : DbState} {n : String} {r : Row}
    (h : db.rows.filter (fun r => r.name == n) = [r]) :
    StoreMysql.selectByName db n = some r := by
  unfold StoreMysql.selectByName
  rw [h]
  rfl

/-- If no row carries the name, the name filter is empty. -/
theorem filter_nil_of_any_false {l : List Row} {n : String}
    (h : l.any (fun r => r.name == n) = false) :
    l.filter (fun r => r.name == n) = [] :=
  List.filter_eq_nil_iff.mpr (List.any_eq_false.mp h)

/-- Under the unique-name constraint, the name filter is empty or a
single row carrying the name. -/
theorem filter_name_cases (l : List Row) (n : String)
    (h : (l.map Row.name).Nodup) :
    l.filter (fun r => r.name == n) = [] ∨
      ∃ r, l.filter (fun r => r.name == n) = [r] ∧ r.name = n := by
  induction l with
  | nil => exact Or.inl rfl
  | cons a t ih =>
    simp only [List.map_cons, List.nodup_cons] at h
    obtain ⟨ha, ht⟩ := h
    by_cases hn : a.name = n
    · right
      refine ⟨a, ?_, hn⟩
      rw [List.filter_cons_of_pos (by simp [hn])]
      have htnil : t.filter (fun r => r.name == n) = [] := by
        apply List.filter_eq_nil_iff.mpr
        intro r hr hrn
        apply ha
        rw [hn, ← show r.name = n from by simpa using hrn]
        exact List.mem_map_of_mem Row.name hr
      rw [htnil]
    · rw [List.filter_cons_of_neg (by simp [hn])]
      exact ih ht

/-- Inserting into a state with no row for the name appends a fresh
row with the next identifier and advances the counter. -/
theorem put_of_absent (db : DbState) (n v : String)
    (h : db.rows.any (fun r => r.name == n) = false) :
    StoreMysql.put db n v = ⟨db.nextId + 1, db.rows ++ [⟨db.nextId, n, v⟩]⟩ := by
  unfold StoreMysql.put StoreMysql.insertRow
  rw [h]
  rfl

/-- Writing to a state that has a row for the name takes the update
fallback. -/
theorem put_of_present (db : DbState) (n v : String)
    (h : db.rows.any (fun r => r.name == n) = true) :
    StoreMysql.put db n v = StoreMysql.updateRow db n v := by
  unfold StoreMysql.put StoreMysql.insertRow
  rw [h]
  rfl

/-- The update fallback leaves every identifier untouched. -/
theorem updateRow_ids (db : DbState) (n v : String) :
    (StoreMysql.updateRow db n v).rows.map Row.id = db.rows.map Row.id := by
  unfold StoreMysql.updateRow
  simp only [List.map_map]
  apply List.map_congr_left
  intro r _
  by_cases h : r.name = n <;> simp [h]

/-- Filtering the updated rows by the written name updates exactly the
rows the filter already selected. -/
theorem filter_updateRow (db : DbState) (n v : String) :
    (StoreMysql.updateRow db n v).rows.filter (fun r => r.name == n) =
      (db.rows.filter (fun r => r.name == n)).map
        (fun r => if r.name == n then Row.mk r.id r.name v else r) := by
  unfold StoreMysql.updateRow
  rw [List.filter_map]
  congr 1
  apply List.filter_congr
  intro r _
  by_cases h : r.name = n <;> simp [h]

/-- After a write, the by-name selection returns the written value
under the identifier the store associates to the name. -/
theorem selectByName_put (db : DbState) (n v : String) (hwf : DbWF db) :
    StoreMysql.selectByName (StoreMysql.put db n v) n =
      some ⟨assignedId db n, n, v⟩ := by
  cases hcase : db.rows.any (fun r => r.name == n) with
  | false =>
    have hnil := filter_nil_of_any_false hcase
    have hassigned : assignedId db n = db.nextId := by
      unfold assignedId
      rw [selectByName_of_filter_nil hnil]
    have hfil : (db.rows ++ [Row.mk db.nextId n v]).filter (fun r => r.name == n)
        = [Row.mk db.nextId n v] := by
      rw [List.filter_append, hnil]
      simp
    rw [put_of_absent db n v hcase, hassigned]
    exact selectByName_of_filter_singleton hfil
  | true =>
    rcases filter_name_cases db.rows n hwf with hnil | ⟨r, hr, hrn⟩
    · obtain ⟨x, hx, hpx⟩ := List.any_eq_true.mp hcase
      have := List.filter_eq_nil_iff.mp hnil x hx
      exact absurd hpx this
    · have hassigned : assignedId db n = r.id := by
        unfold assignedId
        rw [selectByName_of_filter_singleton hr]
      have hfil : (StoreMysql.updateRow db n v).rows.filter (fun r => r.name == n)
          = [⟨r.id, n, v⟩] := by
        rw [filter_updateRow, hr]
        simp [hrn]
      rw [put_of_present db n v hcase, hassigned]
      exact selectByName_of_filter_singleton hfil

/-- After a write, the by-name lookup returns the written value, the
name, and the identifier the store associates to the name. -/
theorem getByName_put (db : DbState) (n v : String) (hwf : DbWF db) :
    StoreMysql.getByName (StoreMysql.put db n v) n =
      ⟨toString (assignedId db n), n, v⟩ := by
  unfold StoreMysql.getByName
  rw [selectByName_put db n v hwf]

/-- A write preserves the unique-name constraint. -/
theorem DbWF_put (db : DbState) (n v : String) (hwf : DbWF db) :
    DbWF (StoreMysql.put db n v) := by
  cases hcase : db.rows.any (fun r => r.name == n) with
  | false =>
    rw [put_of_absent db n v hcase]
    unfold DbWF at *
    simp only [List.map_append, List.map_cons, List.map_nil]
    rw [List.nodup_append]
    refine ⟨hwf, List.nodup_singleton n, ?_⟩
    intro x hx hx1
    simp only [List.mem_singleton] at hx1
    subst hx1
    obtain ⟨r, hr, hrx⟩ := List.mem_map.mp hx
    have := List.any_eq_false.mp hcase r hr
    simp [hrx] at this
  | true =>
    rw [put_of_present db n v hcase]
    unfold DbWF at *
    unfold StoreMysql.updateRow
    simp only [List.map_map]
    have : db.rows.map (Row.name ∘ fun r => if r.name == n then Row.mk r.id r.name v else r)
        = db.rows.map Row.name := by
      apply List.map_congr_left
      intro r _
      by_cases h : r.name = n <;> simp [h]
    rw [this]
    exact hwf

/-- A later write to the same name does not change the identifier the
store associates to it. -/
theorem assignedId_put (db : DbState) (n v : String) (hwf : DbWF db) :
    assignedId (StoreMysql.put db n v) n = assignedId db n := by
  simp [assignedId, selectByName_put db n v hwf]

/-- Full outcome of a well-formed PUT against the in-memory store: 200
with the post-write identity, the envelope written, the state
advanced by the upsert, and exactly a write and a re-read made. -/
theorem serveHTTP_put_eq (fac : String → Except String (Json → Json))
    (db : DbState) (p : String) (q : Option String) (n : String)
    (fs : List (String × Json)) (v : Json)
    (hwf : DbWF db)
    (hp : pathKind p = .named n)
    (hn : validNameChars n.data = true)
    (hv : fs.lookup "value" = some v) :
    serveHTTP memImpl fac db ⟨.put, p, q, true, .obj fs⟩ =
      ⟨200, renderConfigResponse (toString (assignedId db n)) n (renderJson v),
        StoreMysql.put db n (envelopeString (renderJson v)),
        [.put n (envelopeString (renderJson v)), .getByName n], []⟩ := by
  simp only [serveHTTP, validatePath_put hp hn, hv, memImpl,
    getByName_put db n (envelopeString (renderJson v)) hwf,
    parseEnvelope_envelopeString, if_true]

/-- Full outcome of a GET by name against the in-memory store when a
row for the name exists and holds a well-formed envelope: 200 with the
row rendered in fixed key order and no state change. -/
theorem serveHTTP_get_found_eq (fac : String → Except String (Json → Json))
    (db : DbState) (p : String) (q : Option String) (n : String) (r : Row) (raw : String)
    (hp : pathKind p = .named n)
    (hn : validNameChars n.data = true)
    (hsel : StoreMysql.selectByName db n = some r)
    (hrn : r.name = n)
    (henv : parseEnvelope r.value = some raw) :
    serveHTTP memImpl fac db ⟨.get, p, q, true, .empty⟩ =
      ⟨200, renderConfigResponse (toString r.id) n raw, db, [.getByName n], []⟩ := by
  simp only [serveHTTP, validatePath_get hp hn, memImpl, StoreMysql.getByName, hsel, hrn,
    isEmpty_of_validName hn, henv]
  rfl

/-- C1: for every PUT to a valid data path whose JSON body carries the
key value, the handler responds 200 with a body in which the name is
the one resolved from the path, the value is the one parsed from the
request body, and the id is the identifier the store associates to the
name after the write — the response reflects the post-write state. -/
theorem put_responds_with_post_write_state
    (db : DbState) (p : String) (q : Option String) (n : String)
    (fs : List (String × Json)) (v : Json)
    (hwf : DbWF db)
    (hp : pathKind p = .named n)
    (hn : validNameChars n.data = true)
    (hv : fs.lookup "value" = some v) :
    (serveHTTP memImpl rejectAllFactory db ⟨.put, p, q, true, .obj fs⟩).status = 200 ∧
    (serveHTTP memImpl rejectAllFactory db ⟨.put, p, q, true, .obj fs⟩).body =
      renderConfigResponse (toString (assignedId db n)) n (renderJson v) := by
  rw [serveHTTP_put_eq rejectAllFactory db p q n fs v hwf hp hn hv]
  exact ⟨rfl, rfl⟩

/-- Witness for the PUT response theorem at the end-to-end scenario of
the spec: PUT bla with value str on an empty store answers 200 with
the body carrying id 1, the path name and the written value. -/
theorem put_responds_with_post_write_state_witness :
    (serveHTTP memImpl rejectAllFactory DbState.init
        ⟨.put, "/v1/data/bla", none, true, .obj [("value", Json.str "str")]⟩).status = 200 ∧
    (serveHTTP memImpl rejectAllFactory DbState.init
        ⟨.put, "/v1/data/bla", none, true, .obj [("value", Json.str "str")]⟩).body =
      "\x7b\"id\":\"1\",\"name\":\"bla\",\"value\":\"str\"\x7d" := by
  have h := put_responds_with_post_write_state DbState.init "/v1/data/bla" none "bla"
    [("value", Json.str "str")] (Json.str "str")
    (by unfold DbWF; decide) (by decide) (by decide) rfl
  exact ⟨h.1, h.2.trans (by decide)⟩

/-- C2: Put is an upsert by optimistic insert with update fallback:
with no row for the name the insert succeeds, appending a row under
the next identifier; with an existing row the insert reports a
uniqueness violation and the fallback update overwrites the value
leaving every identifier untouched; in both cases the by-name lookup
after the write, and after any further overwrite, returns the
identifier assigned at first write. -/
theorem put_is_optimistic_insert_with_update_fallback
    (db : DbState) (n v w : String) (hwf : DbWF db) :
    (db.rows.any (fun r => r.name == n) = false →
      StoreMysql.insertRow db n v
          = .ok ⟨db.nextId + 1, db.rows ++ [Row.mk db.nextId n v]⟩ ∧
      StoreMysql.put db n v = ⟨db.nextId + 1, db.rows ++ [Row.mk db.nextId n v]⟩) ∧
    (db.rows.any (fun r => r.name == n) = true →
      (∃ e, StoreMysql.insertRow db n v = .error e) ∧
      StoreMysql.put db n v = StoreMysql.updateRow db n v ∧
      (StoreMysql.updateRow db n v).rows.map Row.id = db.rows.map Row.id) ∧
    StoreMysql.getByName (StoreMysql.put db n v) n
      = ⟨toString (assignedId db n), n, v⟩ ∧
    StoreMysql.getByName (StoreMysql.put (StoreMysql.put db n v) n w) n
      = ⟨toString (assignedId db n), n, w⟩ := by
  refine ⟨?_, ?_, getByName_put db n v hwf, ?_⟩
  · intro h
    constructor
    · unfold StoreMysql.insertRow
      rw [h]
      rfl
    · exact put_of_absent db n v h
  · intro h
    refine ⟨⟨"duplicate entry for name", ?_⟩, put_of_present db n v h, updateRow_ids db n v⟩
    unfold StoreMysql.insertRow
    rw [h]
    rfl
  · rw [getByName_put (StoreMysql.put db n v) n w (DbWF_put db n v hwf),
      assignedId_put db n v hwf]

/-- Witness for the upsert theorem at the store test scenario: putting
to the existing name Luke takes the update fallback and the lookup
keeps the id assigned at first write while the value is overwritten. -/
theorem put_is_optimistic_insert_with_update_fallback_witness :
    StoreMysql.put ⟨2, [Row.mk 1 "Luke" "old"]⟩ "Luke" "Skywalker"
        = StoreMysql.updateRow ⟨2, [Row.mk 1 "Luke" "old"]⟩ "Luke" "Skywalker" ∧
    StoreMysql.getByName
        (StoreMysql.put ⟨2, [Row.mk 1 "Luke" "old"]⟩ "Luke" "Skywalker") "Luke"
      = ⟨"1", "Luke", "Skywalker"⟩ := by
  have h := put_is_optimistic_insert_with_update_fallback
    ⟨2, [Row.mk 1 "Luke" "old"]⟩ "Luke" "Skywalker" "other" (by unfold DbWF; decide)
  exact ⟨(h.2.1 (by decide)).2.1, (h.2.2.1).trans (by decide)⟩

/-- C5: a PUT of a value to a valid name followed by a GET of the same
name answers 200 with the stable identifier, the name and exactly the
value written, recovered unchanged from the stored envelope. -/
theorem put_then_get_roundtrip
    (db : DbState) (p : String) (q q1 : Option String) (n : String)
    (fs : List (String × Json)) (v : Json)
    (hwf : DbWF db)
    (hp : pathKind p = .named n)
    (hn : validNameChars n.data = true)
    (hv : fs.lookup "value" = some v) :
    (serveHTTP memImpl rejectAllFactory
        (serveHTTP memImpl rejectAllFactory db ⟨.put, p, q, true, .obj fs⟩).state
        ⟨.get, p, q1, true, .empty⟩).status = 200 ∧
    (serveHTTP memImpl rejectAllFactory
        (serveHTTP memImpl rejectAllFactory db ⟨.put, p, q, true, .obj fs⟩).state
        ⟨.get, p, q1, true, .empty⟩).body =
      renderConfigResponse (toString (assignedId db n)) n (renderJson v) := by
  have hstate : (serveHTTP memImpl rejectAllFactory db ⟨.put, p, q, true, .obj fs⟩).state
      = StoreMysql.put db n (envelopeString (renderJson v)) := by
    rw [serveHTTP_put_eq rejectAllFactory db p q n fs v hwf hp hn hv]
  rw [hstate,
    serveHTTP_get_found_eq rejectAllFactory
      (StoreMysql.put db n (envelopeString (renderJson v))) p q1 n
      (Row.mk (assignedId db n) n (envelopeString (renderJson v))) (renderJson v)
      hp hn (selectByName_put db n (envelopeString (renderJson v)) hwf) rfl
      (parseEnvelope_envelopeString (renderJson v))]
  exact ⟨rfl, rfl⟩

/-- Witness for the roundtrip theorem: PUT bla with a JSON hash value
then GET bla on an empty store answers 200 with the written hash. -/
theorem put_then_get_roundtrip_witness :
    (serveHTTP memImpl rejectAllFactory
        (serveHTTP memImpl rejectAllFactory DbState.init
          ⟨.put, "/v1/data/bla", none, true,
            .obj [("value", Json.obj [("age", Json.num 10), ("color", Json.str "red")])]⟩).state
        ⟨.get, "/v1/data/bla", none, true, .empty⟩).status = 200 ∧
    (serveHTTP memImpl rejectAllFactory
        (serveHTTP memImpl rejectAllFactory DbState.init
          ⟨.put, "/v1/data/bla", none, true,
            .obj [("value", Json.obj [("age", Json.num 10), ("color", Json.str "red")])]⟩).state
        ⟨.get, "/v1/data/bla", none, true, .empty⟩).body =
      "\x7b\"id\":\"1\",\"name\":\"bla\",\"value\":\x7b\"age\":10,\"color\":\"red\"\x7d\x7d" := by
  have h := put_then_get_roundtrip DbState.init "/v1/data/bla" none none "bla"
    [("value", Json.obj [("age", Json.num 10), ("color", Json.str "red")])]
    (Json.obj [("age", Json.num 10), ("color", Json.str "red")])
    (by unfold DbWF; decide) (by decide) (by decide) rfl
  exact ⟨h.1, h.2.trans (by decide)⟩

/-- Fake store mirroring the existing-record stubs of the handler
test: every by-name lookup returns the record bla with value smurf,
every by-id lookup returns the crossfit record of the by-id test. -/
def mockExistingStore : StoreImpl Unit where
  getByName := fun _ _ => .ok (⟨"some_id", "bla", envelopeString "\"smurf\""⟩, ())
  getById := fun _ _ => .ok (⟨"some_id", "bla", envelopeString "\"crossfit\""⟩, ())
  put := fun _ _ _ => .ok ()
  delete := fun _ _ => .ok (false, ())

/-- Fake store whose lookups always report absence and whose delete
reports that no row matched. -/
def mockEmptyStore : StoreImpl Unit where
  getByName := fun _ _ => .ok (Configuration.empty, ())
  getById := fun _ _ => .ok (Configuration.empty, ())
  put := fun _ _ _ => .ok ()
  delete := fun _ _ => .ok (false, ())

/-- C3: a POST whose body carries the key type, on a name for which
the store lookup returns an existing record with no error, answers 200
with the existing record and never consults the generator factory. -/
theorem post_existing_returns_existing_without_generator
    {σ : Type} (impl : StoreImpl σ) (fac : String → Except String (Json → Json))
    (s s1 : σ) (c : Configuration) (raw : String)
    (p : String) (q : Option String) (n : String)
    (fs : List (String × Json)) (tv : Json)
    (hp : pathKind p = .named n)
    (hn : validNameChars n.data = true)
    (ht : fs.lookup "type" = some tv)
    (hget : impl.getByName s n = .ok (c, s1))
    (hne : c.isEmpty = false)
    (henv : parseEnvelope c.value = some raw) :
    (serveHTTP impl fac s ⟨.post, p, q, true, .obj fs⟩).status = 200 ∧
    (serveHTTP impl fac s ⟨.post, p, q, true, .obj fs⟩).body =
      renderConfigResponse c.id c.name raw ∧
    (serveHTTP impl fac s ⟨.post, p, q, true, .obj fs⟩).factoryCalls = [] := by
  simp only [serveHTTP, validatePath_post hp hn, ht, hget, hne, henv]
  exact ⟨rfl, rfl, rfl⟩

/-- Witness for the existing-record POST theorem at the password test
scenario: the stubbed record is returned verbatim with no factory
consultation. -/
theorem post_existing_returns_existing_without_generator_witness :
    (serveHTTP mockExistingStore rejectAllFactory ()
        ⟨.post, "/v1/data/bla/", none, true,
          .obj [("type", Json.str "password"), ("parameters", Json.obj [])]⟩).status = 200 ∧
    (serveHTTP mockExistingStore rejectAllFactory ()
        ⟨.post, "/v1/data/bla/", none, true,
          .obj [("type", Json.str "password"), ("parameters", Json.obj [])]⟩).body =
      "\x7b\"id\":\"some_id\",\"name\":\"bla\",\"value\":\"smurf\"\x7d" ∧
    (serveHTTP mockExistingStore rejectAllFactory ()
        ⟨.post, "/v1/data/bla/", none, true,
          .obj [("type", Json.str "password"), ("parameters", Json.obj [])]⟩).factoryCalls
      = [] := by
  have h := post_existing_returns_existing_without_generator mockExistingStore
    rejectAllFactory () () ⟨"some_id", "bla", envelopeString "\"smurf\""⟩ "\"smurf\""
    "/v1/data/bla/" none "bla"
    [("type", Json.str "password"), ("parameters", Json.obj [])] (Json.str "password")
    (by decide) (by decide) rfl rfl (by decide) (parseEnvelope_envelopeString "\"smurf\"")
  exact ⟨h.1, h.2.1.trans (by decide), h.2.2⟩

/-- C10: a POST on an existing name never validates the body's type
string against the generator registry: even against a factory that
rejects every type, any type string yields 200 with the existing
record and no factory consultation. -/
theorem post_existing_ignores_unknown_type
    {σ : Type} (impl : StoreImpl σ) (s s1 : σ) (c : Configuration) (raw : String)
    (p : String) (q : Option String) (n t : String) (fs : List (String × Json))
    (hp : pathKind p = .named n)
    (hn : validNameChars n.data = true)
    (ht : fs.lookup "type" = some (Json.str t))
    (hget : impl.getByName s n = .ok (c, s1))
    (hne : c.isEmpty = false)
    (henv : parseEnvelope c.value = some raw) :
    (serveHTTP impl rejectAllFactory s ⟨.post, p, q, true, .obj fs⟩).status = 200 ∧
    (serveHTTP impl rejectAllFactory s ⟨.post, p, q, true, .obj fs⟩).body =
      renderConfigResponse c.id c.name raw ∧
    (serveHTTP impl rejectAllFactory s ⟨.post, p, q, true, .obj fs⟩).factoryCalls = [] := by
  simp only [serveHTTP, validatePath_post hp hn, ht, hget, hne, henv]
  exact ⟨rfl, rfl, rfl⟩

/-- Witness for the unknown-type POST theorem at the certificate test
scenario with a type string no generator supports. -/
theorem post_existing_ignores_unknown_type_witness :
    (serveHTTP mockExistingStore rejectAllFactory ()
        ⟨.post, "/v1/data/bla/", none, true,
          .obj [("type", Json.str "no-such-generator")]⟩).status = 200 ∧
    (serveHTTP mockExistingStore rejectAllFactory ()
        ⟨.post, "/v1/data/bla/", none, true,
          .obj [("type", Json.str "no-such-generator")]⟩).body =
      "\x7b\"id\":\"some_id\",\"name\":\"bla\",\"value\":\"smurf\"\x7d" ∧
    (serveHTTP mockExistingStore rejectAllFactory ()
        ⟨.post, "/v1/data/bla/", none, true,
          .obj [("type", Json.str "no-such-generator")]⟩).factoryCalls = [] := by
  have h := post_existing_ignores_unknown_type mockExistingStore () ()
    ⟨"some_id", "bla", envelopeString "\"smurf\""⟩ "\"smurf\""
    "/v1/data/bla/" none "bla" "no-such-generator"
    [("type", Json.str "no-such-generator")]
    (by decide) (by decide) rfl rfl (by decide) (parseEnvelope_envelopeString "\"smurf\"")
  exact ⟨h.1, h.2.1.trans (by decide), h.2.2⟩

/-- The path validator resolves a GET on the bare data path with an id
query parameter to the by-id lookup operation. -/
theorem validatePath_byId (i : String) :
    validatePath .get "/v1/data" (some i) = .ok (.getById i) := rfl

/-- C4: for a name or id with no row the store lookups return the zero
Configuration with no error; an error arises exactly from a connection
or scan failure; and the handler translates the empty result, not an
error, into 404, by name and by id. -/
theorem get_absence_is_not_an_error :
    getByNameFallible (.ok .noRows) = .ok Configuration.empty ∧
    getByIdFallible (.ok .noRows) = .ok Configuration.empty ∧
    (∀ pr e, getByNameFallible pr = .error e ↔
      pr = .error e ∨ pr = .ok (.scanFailure e)) ∧
    (∀ pr e, getByIdFallible pr = .error e ↔
      pr = .error e ∨ pr = .ok (.scanFailure e)) ∧
    (∀ db n, db.rows.any (fun r => r.name == n) = false →
      StoreMysql.getByName db n = Configuration.empty) ∧
    (∀ db i, db.rows.any (fun r => toString r.id == i) = false →
      StoreMysql.getById db i = Configuration.empty) ∧
    (∀ (σ : Type) (impl : StoreImpl σ) (fac : String → Except String (Json → Json))
        (s s1 : σ) (p : String) (q : Option String) (n : String),
      pathKind p = .named n → validNameChars n.data = true →
      impl.getByName s n = .ok (Configuration.empty, s1) →
      (serveHTTP impl fac s ⟨.get, p, q, true, .empty⟩).status = 404) ∧
    (∀ (σ : Type) (impl : StoreImpl σ) (fac : String → Except String (Json → Json))
        (s s1 : σ) (i : String),
      impl.getById s i = .ok (Configuration.empty, s1) →
      (serveHTTP impl fac s ⟨.get, "/v1/data", some i, true, .empty⟩).status = 404) := by
  refine ⟨rfl, rfl, ?_, ?_, ?_, ?_, ?_, ?_⟩
  · intro pr e
    rcases pr with e1 | sc
    · simp [getByNameFallible]
    · rcases sc with c | _ | e1 <;> simp [getByNameFallible]
  · intro pr e
    rcases pr with e1 | sc
    · simp [getByIdFallible]
    · rcases sc with c | _ | e1 <;> simp [getByIdFallible]
  · intro db n h
    unfold StoreMysql.getByName
    rw [selectByName_of_filter_nil (filter_nil_of_any_false h)]
  · intro db i h
    unfold StoreMysql.getById
    rw [List.find?_eq_none.mpr]
    intro r hr
    simpa using List.any_eq_false.mp h r hr
  · intro σ impl fac s s1 p q n hp hn hget
    simp only [serveHTTP, validatePath_get hp hn, hget]
    rfl
  · intro σ impl fac s s1 i hget
    simp only [serveHTTP, validatePath_byId, hget]
    rfl

/-- Witness for the absence theorem: a store whose lookups report
absence drives the handler to 404 by name and by id, and the fallible
lookup maps a connection failure to that same error. -/
theorem get_absence_is_not_an_error_witness :
    (serveHTTP mockEmptyStore rejectAllFactory ()
        ⟨.get, "/v1/data/test", none, true, .empty⟩).status = 404 ∧
    (serveHTTP mockEmptyStore rejectAllFactory ()
        ⟨.get, "/v1/data", some "test", true, .empty⟩).status = 404 ∧
    getByNameFallible (.error "connection failure") = .error "connection failure" := by
  refine ⟨?_, ?_, ?_⟩
  · exact get_absence_is_not_an_error.2.2.2.2.2.2.1 Unit mockEmptyStore
      rejectAllFactory () () "/v1/data/test" none "test" (by decide) (by decide) rfl
  · exact get_absence_is_not_an_error.2.2.2.2.2.2.2 Unit mockEmptyStore
      rejectAllFactory () () "test" rfl
  · exact (get_absence_is_not_an_error.2.2.1 (.error "connection failure")
      "connection failure").mpr (Or.inl rfl)

/-- C6: a successful GET, by name or by id, of an existing record
whose stored value is the envelope of a payload answers 200 with a
body that embeds the payload as raw JSON text extracted from the
envelope, the keys serialized in the fixed order id, name, value. -/
theorem get_renders_raw_value_in_fixed_key_order
    {σ : Type} (impl : StoreImpl σ) (fac : String → Except String (Json → Json))
    (s s1 s2 : σ) (c d : Configuration) (pv pw : Json)
    (p : String) (q : Option String) (n i : String)
    (hp : pathKind p = .named n)
    (hn : validNameChars n.data = true)
    (hget : impl.getByName s n = .ok (c, s1))
    (hne : c.isEmpty = false)
    (hval : c.value = envelopeString (renderJson pv))
    (hgetid : impl.getById s i = .ok (d, s2))
    (hned : d.isEmpty = false)
    (hvald : d.value = envelopeString (renderJson pw)) :
    ((serveHTTP impl fac s ⟨.get, p, q, true, .empty⟩).status = 200 ∧
      (serveHTTP impl fac s ⟨.get, p, q, true, .empty⟩).body =
        "\x7b\"id\":\"" ++ c.id ++ "\",\"name\":\"" ++ c.name ++ "\",\"value\":"
          ++ renderJson pv ++ "\x7d") ∧
    ((serveHTTP impl fac s ⟨.get, "/v1/data", some i, true, .empty⟩).status = 200 ∧
      (serveHTTP impl fac s ⟨.get, "/v1/data", some i, true, .empty⟩).body =
        "\x7b\"id\":\"" ++ d.id ++ "\",\"name\":\"" ++ d.name ++ "\",\"value\":"
          ++ renderJson pw ++ "\x7d") := by
  constructor
  · simp only [serveHTTP, validatePath_get hp hn, hget, hne, hval,
      parseEnvelope_envelopeString]
    exact ⟨rfl, rfl⟩
  · simp only [serveHTTP, validatePath_byId, hgetid, hned, hvald,
      parseEnvelope_envelopeString]
    exact ⟨rfl, rfl⟩

/-- Witness for the raw-value rendering theorem at the by-name smurf
record and the by-id crossfit record of the handler test, with the
exact bodies the test expects. -/
theorem get_renders_raw_value_in_fixed_key_order_witness :
    ((serveHTTP mockExistingStore rejectAllFactory ()
        ⟨.get, "/v1/data/bla/", none, true, .empty⟩).status = 200 ∧
      (serveHTTP mockExistingStore rejectAllFactory ()
        ⟨.get, "/v1/data/bla/", none, true, .empty⟩).body =
        "\x7b\"id\":\"some_id\",\"name\":\"bla\",\"value\":\"smurf\"\x7d") ∧
    ((serveHTTP mockExistingStore rejectAllFactory ()
        ⟨.get, "/v1/data", some "some_id", true, .empty⟩).status = 200 ∧
      (serveHTTP mockExistingStore rejectAllFactory ()
        ⟨.get, "/v1/data", some "some_id", true, .empty⟩).body =
        "\x7b\"id\":\"some_id\",\"name\":\"bla\",\"value\":\"crossfit\"\x7d") := by
  have h := get_renders_raw_value_in_fixed_key_order mockExistingStore
    rejectAllFactory () () () ⟨"some_id", "bla", envelopeString "\"smurf\""⟩
    ⟨"some_id", "bla", envelopeString "\"crossfit\""⟩
    (Json.str "smurf") (Json.str "crossfit")
    "/v1/data/bla/" none "bla" "some_id"
    (by decide) (by decide) rfl (by decide) (by decide) rfl (by decide) (by decide)
  exact ⟨⟨h.1.1, h.1.2.trans (by decide)⟩, ⟨h.2.1, h.2.2.trans (by decide)⟩⟩

/-- A generated password always has twenty characters. -/
theorem generatePassword_length (randoms : List Nat) :
    (generatePassword randoms).length = 20 := by
  simp [generatePassword, String.length]

/-- Every character of a generated password is lower-case
alphanumeric. -/
theorem generatePassword_chars (randoms : List Nat) :
    (generatePassword randoms).data.all isPasswordChar = true := by
  rw [List.all_eq_true]
  intro c hc
  obtain ⟨i, _, rfl⟩ := List.mem_map.mp hc
  have hlt : randoms.getD i 0 % 36 < passwordChars.length := by
    have h36 : passwordChars.length = 36 := by decide
    rw [h36]
    exact Nat.mod_lt _ (by decide)
  have hmem : passwordChars.getD (randoms.getD i 0 % 36) 'a' ∈ passwordChars := by
    rw [List.getD_eq_getElem passwordChars 'a' hlt]
    exact List.getElem_mem hlt
  have hall : ∀ x ∈ passwordChars, isPasswordChar x = true := by decide
  exact hall _ hmem

/-- C7: a POST of type password to a valid name absent from the store
answers 201 Created, and the generated value is a twenty-character
string over the lower-case alphanumeric alphabet. -/
theorem post_password_absent_creates_twenty_char_password
    (randoms : List Nat) (db : DbState) (p : String) (q : Option String)
    (n : String) (fs : List (String × Json))
    (hwf : DbWF db)
    (hp : pathKind p = .named n)
    (hn : validNameChars n.data = true)
    (ht : fs.lookup "type" = some (Json.str "password"))
    (habs : db.rows.any (fun r => r.name == n) = false) :
    (serveHTTP memImpl (passwordFactory randoms) db
        ⟨.post, p, q, true, .obj fs⟩).status = 201 ∧
    (serveHTTP memImpl (passwordFactory randoms) db
        ⟨.post, p, q, true, .obj fs⟩).body =
      renderConfigResponse (toString db.nextId) n
        (renderJson (Json.str (generatePassword randoms))) ∧
    (generatePassword randoms).length = 20 ∧
    (generatePassword randoms).data.all isPasswordChar = true := by
  have hassigned : assignedId db n = db.nextId := by
    unfold assignedId
    rw [selectByName_of_filter_nil (filter_nil_of_any_false habs)]
  have hempty : StoreMysql.getByName db n = Configuration.empty := by
    unfold StoreMysql.getByName
    rw [selectByName_of_filter_nil (filter_nil_of_any_false habs)]
  have hfac : passwordFactory randoms "password"
      = .ok (fun _ => Json.str (generatePassword randoms)) := by
    simp [passwordFactory]
  refine ⟨?_, ?_, generatePassword_length randoms, generatePassword_chars randoms⟩ <;>
    simp only [serveHTTP, validatePath_post hp hn, ht, memImpl, hempty, jsonAsString,
      hfac,
      getByName_put db n
        (envelopeString (renderJson (Json.str (generatePassword randoms)))) hwf,
      hassigned, parseEnvelope_envelopeString] <;>
    rfl

/-- Witness for the password POST theorem: with a fixed random stream
on an empty store, POST bla of type password answers 201 with a
twenty-character lower-case alphanumeric value under id 1. -/
theorem post_password_absent_creates_twenty_char_password_witness :
    (serveHTTP memImpl (passwordFactory [1, 37, 8]) DbState.init
        ⟨.post, "/v1/data/bla/", none, true,
          .obj [("type", Json.str "password"), ("parameters", Json.obj [])]⟩).status
      = 201 ∧
    (serveHTTP memImpl (passwordFactory [1, 37, 8]) DbState.init
        ⟨.post, "/v1/data/bla/", none, true,
          .obj [("type", Json.str "password"), ("parameters", Json.obj [])]⟩).body =
      "\x7b\"id\":\"1\",\"name\":\"bla\",\"value\":\"bbiaaaaaaaaaaaaaaaaa\"\x7d" ∧
    (generatePassword [1, 37, 8]).length = 20 ∧
    (generatePassword [1, 37, 8]).data.all isPasswordChar = true := by
  have h := post_password_absent_creates_twenty_char_password [1, 37, 8]
    DbState.init "/v1/data/bla/" none "bla"
    [("type", Json.str "password"), ("parameters", Json.obj [])]
    (by unfold DbWF; decide) (by decide) (by decide) rfl (by decide)
  exact ⟨h.1, h.2.1.trans (by decide), h.2.2.1, h.2.2.2⟩

/-- C8: the handler maps a delete result of true to 204 No Content,
false to 404 Not Found and a store error to 500; and the store's
delete reports true with no error exactly when at least one row
carried the name, false with no error when none did, while an error
arises only from a connection or execution failure. -/
theorem delete_status_mapping_and_store_semantics :
    (∀ (σ : Type) (impl : StoreImpl σ) (fac : String → Except String (Json → Json))
        (s s1 : σ) (p : String) (q : Option String) (n : String),
      pathKind p = .named n → validNameChars n.data = true →
      impl.delete s n = .ok (true, s1) →
      (serveHTTP impl fac s ⟨.delete, p, q, true, .empty⟩).status = 204) ∧
    (∀ (σ : Type) (impl : StoreImpl σ) (fac : String → Except String (Json → Json))
        (s s1 : σ) (p : String) (q : Option String) (n : String),
      pathKind p = .named n → validNameChars n.data = true →
      impl.delete s n = .ok (false, s1) →
      (serveHTTP impl fac s ⟨.delete, p, q, true, .empty⟩).status = 404) ∧
    (∀ (σ : Type) (impl : StoreImpl σ) (fac : String → Except String (Json → Json))
        (s : σ) (p : String) (q : Option String) (n e : String),
      pathKind p = .named n → validNameChars n.data = true →
      impl.delete s n = .error e →
      (serveHTTP impl fac s ⟨.delete, p, q, true, .empty⟩).status = 500) ∧
    (∀ db n, (StoreMysql.delete db n).1 = true ↔ ∃ r ∈ db.rows, r.name = n) ∧
    (∀ k, deleteFallible (.ok (.ok k)) = .ok (decide (1 ≤ k))) ∧
    (∀ e, deleteFallible (.error e) = .error e ∧
      deleteFallible (.ok (.error e)) = .error e) := by
  refine ⟨?_, ?_, ?_, ?_, fun k => rfl, fun e => ⟨rfl, rfl⟩⟩
  · intro σ impl fac s s1 p q n hp hn hdel
    simp only [serveHTTP, validatePath_delete hp hn, hdel]
  · intro σ impl fac s s1 p q n hp hn hdel
    simp only [serveHTTP, validatePath_delete hp hn, hdel]
  · intro σ impl fac s p q n e hp hn hdel
    simp only [serveHTTP, validatePath_delete hp hn, hdel]
  · intro db n
    constructor
    · intro h
      by_contra hno
      push_neg at hno
      have hfil : db.rows.filter (fun r => r.name == n) = [] :=
        List.filter_eq_nil_iff.mpr (fun r hr => by simpa using hno r hr)
      simp [StoreMysql.delete, hfil] at h
    · rintro ⟨r, hr, hrn⟩
      have hmem : r ∈ db.rows.filter (fun r => r.name == n) :=
        List.mem_filter.mpr ⟨hr, by simp [hrn]⟩
      have hpos : 0 < (db.rows.filter (fun r => r.name == n)).length :=
        List.length_pos.mpr (List.ne_nil_of_mem hmem)
      simp only [StoreMysql.delete, decide_eq_true_eq]
      exact hpos

/-- Witness for the delete theorem: deleting the one row named Luke
reports an affected row, the handler answers 204 there and 404 against
a store reporting no match, and deleting an absent name on the pure
store reports false. -/
theorem delete_status_mapping_and_store_semantics_witness :
    (serveHTTP memImpl rejectAllFactory ⟨2, [Row.mk 1 "Luke" "x"]⟩
        ⟨.delete, "/v1/data/Luke", none, true, .empty⟩).status = 204 ∧
    (serveHTTP mockEmptyStore rejectAllFactory ()
        ⟨.delete, "/v1/data/bla", none, true, .empty⟩).status = 404 ∧
    ((StoreMysql.delete ⟨2, [Row.mk 1 "Luke" "x"]⟩ "Luke").1 = true) ∧
    ((StoreMysql.delete ⟨2, [Row.mk 1 "Luke" "x"]⟩ "name").1 = false) := by
  refine ⟨?_, ?_, ?_, by decide⟩
  · exact delete_status_mapping_and_store_semantics.1 DbState memImpl
      rejectAllFactory ⟨2, [Row.mk 1 "Luke" "x"]⟩ ⟨2, []⟩ "/v1/data/Luke" none "Luke"
      (by decide) (by decide) rfl
  · exact delete_status_mapping_and_store_semantics.2.1 Unit mockEmptyStore
      rejectAllFactory () () "/v1/data/bla" none "bla" (by decide) (by decide) rfl
  · exact (delete_status_mapping_and_store_semantics.2.2.2.1
      ⟨2, [Row.mk 1 "Luke" "x"]⟩ "Luke").mpr ⟨Row.mk 1 "Luke" "x", by decide, rfl⟩

/-- C9: any of the four supported methods on a data path whose
normalized name is invalid answers 400 with the documented message and
makes no store and no generator-factory call. -/
theorem invalid_name_yields_400_without_backend_calls
    {σ : Type} (impl : StoreImpl σ) (fac : String → Except String (Json → Json))
    (s : σ) (m : Method) (p : String) (q : Option String) (b : ReqBody) (n : String)
    (hm : m = .get ∨ m = .put ∨ m = .post ∨ m = .delete)
    (hp : pathKind p = .named n)
    (hn : validNameChars n.data = false) :
    (serveHTTP impl fac s ⟨m, p, q, true, b⟩).status = 400 ∧
    (serveHTTP impl fac s ⟨m, p, q, true, b⟩).body = badNameMsg ∧
    (serveHTTP impl fac s ⟨m, p, q, true, b⟩).storeCalls = [] ∧
    (serveHTTP impl fac s ⟨m, p, q, true, b⟩).factoryCalls = [] := by
  clear hm
  simp [serveHTTP, validatePath_badName m hp hn]

/-- Witness for the invalid-name theorem at a path of the handler
test containing the disallowed characters at-sign and question mark. -/
theorem invalid_name_yields_400_without_backend_calls_witness :
    (serveHTTP mockEmptyStore rejectAllFactory ()
        ⟨.get, "/v1/data/name/@?/", none, true, .empty⟩).status = 400 ∧
    (serveHTTP mockEmptyStore rejectAllFactory ()
        ⟨.get, "/v1/data/name/@?/", none, true, .empty⟩).body = badNameMsg ∧
    (serveHTTP mockEmptyStore rejectAllFactory ()
        ⟨.get, "/v1/data/name/@?/", none, true, .empty⟩).storeCalls = [] ∧
    (serveHTTP mockEmptyStore rejectAllFactory ()
        ⟨.get, "/v1/data/name/@?/", none, true, .empty⟩).factoryCalls = [] :=
  invalid_name_yields_400_without_backend_calls mockEmptyStore rejectAllFactory ()
    .get "/v1/data/name/@?/" none .empty "name/@?"
    (Or.inl rfl) (by decide) (by decide)
